import Mathlib

/-!
Verification development for the football-data polling engine.

The definitions below are a shallow embedding of the JavaScript sources:
`lib/constants.js`, `lib/FootballAPI.js` (rate limiter) and
`lib/MatchManager.js` (polling engine, diff/event detector).
Times are modelled as integer milliseconds since the epoch; the fractional
minute/hour quantities computed by the source are modelled exactly as
rational numbers.  Event emission is modelled as the list of events the
manager would emit (an event reaches a team only when that team is
tracked, mirroring `emitForTeam`).  The mutable `MatchManager` instance is
modelled by the `ManagerState` record, and `poll` is a pure function of
the state together with the outcome of the (single) fetch of the cycle.
-/

namespace FootballData

/-! ## constants.js -/

def RATE_LIMIT : Nat := 10

def RATE_LIMIT_BUFFER : Nat := 2

inductive MatchStatus
  | SCHEDULED
  | TIMED
  | IN_PLAY
  | PAUSED
  | FINISHED
  | SUSPENDED
  | POSTPONED
  | CANCELLED
  | AWARDED
deriving DecidableEq, Repr

def LIVE_STATUSES : List MatchStatus := [.IN_PLAY, .PAUSED]

def UPCOMING_STATUSES : List MatchStatus := [.SCHEDULED, .TIMED]

def COMPLETED_STATUSES : List MatchStatus := [.FINISHED, .AWARDED]

inductive PollingState
  | IDLE
  | PRE_MATCH
  | LIVE
  | PAUSED
  | POST_MATCH
deriving DecidableEq, Repr

/-- Polling intervals in milliseconds, from `POLLING_INTERVALS` in constants.js. -/
def POLLING_INTERVALS : PollingState → Int
  | .IDLE => 15 * 60 * 1000
  | .PRE_MATCH => 5 * 60 * 1000
  | .LIVE => 30 * 1000
  | .PAUSED => 2 * 60 * 1000
  | .POST_MATCH => 5 * 60 * 1000

def MATCH_SOON_THRESHOLDS : List Nat := [15, 30, 60, 120]

inductive EventName
  | TEAM_SCORED
  | TEAM_CONCEDED
  | MATCH_KICKOFF
  | HALFTIME_STARTED
  | SECOND_HALF_STARTED
  | EXTRA_TIME_STARTED
  | MATCH_FINISHED
  | TEAM_WON
  | TEAM_LOST
  | TEAM_DREW
  | MATCH_STARTS_SOON
  | MATCH_RESULT_CHANGED
deriving DecidableEq, Repr

/-! ## API match records

A fetched match, as consumed by `MatchManager`: `score?.fullTime?.home`
and friends are optional fields defaulted to 0 at use sites (`?? 0`). -/

structure TeamRef where
  id : Int
  name : String
  shortName : Option String
deriving DecidableEq, Repr

structure MatchInfo where
  id : Int
  status : MatchStatus
  utcDate : Int
  homeTeam : TeamRef
  awayTeam : TeamRef
  fullTimeHome : Option Int
  fullTimeAway : Option Int
  minute : Option Int
  competition : Option String
deriving DecidableEq, Repr

/-! ## FootballAPI.js rate limiter -/

/-- `cleanExpiredTimestamps`: keep timestamps strictly newer than one minute ago. -/
def cleanExpiredTimestamps (now : Int) (tss : List Int) : List Int :=
  tss.filter (fun ts => decide (ts > now - 60000))

/-- `canMakeRequest`: the cleaned window must be strictly below the effective
quota, which is `RATE_LIMIT` for high-priority requests and
`RATE_LIMIT - RATE_LIMIT_BUFFER` otherwise. -/
def canMakeRequest (now : Int) (tss : List Int) (highPriority : Bool) : Bool :=
  let cleaned := cleanExpiredTimestamps now tss
  let limit := if highPriority then RATE_LIMIT else RATE_LIMIT - RATE_LIMIT_BUFFER
  decide (cleaned.length < limit)

structure RequestRec where
  time : Int
  highPriority : Bool
deriving DecidableEq, Repr

def requestTimes (rs : List RequestRec) : List Int := rs.map (fun r => r.time)

/-- Admission model of `request`: the head of the list is the most recent
request.  A request is appended (its timestamp recorded, immediately before
transmission) only once `canMakeRequest` holds at its send time against the
timestamps already recorded; the `while`/`sleep` loop in `request` guarantees
exactly this.  Times are nondecreasing along the trace. -/
def validTrace : List RequestRec → Bool
  | [] => true
  | r :: rest =>
    validTrace rest &&
    rest.all (fun r2 => decide (r2.time ≤ r.time)) &&
    canMakeRequest r.time (requestTimes rest) r.highPriority

/-- Number of requests in the trailing 60-second window ending at `T`
that satisfy the predicate `p`. -/
def windowCount (rs : List RequestRec) (T : Int) (p : RequestRec → Bool) : Nat :=
  (rs.filter (fun r => p r && decide (T - 60000 < r.time) && decide (r.time ≤ T))).length

/-! ## MatchManager.js: cached state and event emission -/

structure EventFlags where
  kickoffTriggered : Bool
  halftimeTriggered : Bool
  secondHalfTriggered : Bool
  extraTimeTriggered : Bool
  finishedTriggered : Bool
deriving DecidableEq, Repr

def EventFlags.initial : EventFlags :=
  { kickoffTriggered := false
    halftimeTriggered := false
    secondHalfTriggered := false
    extraTimeTriggered := false
    finishedTriggered := false }

structure CachedMatch where
  id : Int
  status : MatchStatus
  utcDate : Int
  homeScore : Int
  awayScore : Int
  homeTeamId : Int
  awayTeamId : Int
  homeTeamName : String
  awayTeamName : String
  homeTeamShortName : String
  awayTeamShortName : String
  minute : Int
  competition : String
  events : EventFlags
deriving DecidableEq, Repr

/-- `createMatchState`: build the cache entry for a fetched match, carrying
the existing marker set forward when one is supplied. -/
def createMatchState (m : MatchInfo) (existingEvents : Option EventFlags) : CachedMatch :=
  { id := m.id
    status := m.status
    utcDate := m.utcDate
    homeScore := m.fullTimeHome.getD 0
    awayScore := m.fullTimeAway.getD 0
    homeTeamId := m.homeTeam.id
    awayTeamId := m.awayTeam.id
    homeTeamName := m.homeTeam.name
    awayTeamName := m.awayTeam.name
    homeTeamShortName := m.homeTeam.shortName.getD m.homeTeam.name
    awayTeamShortName := m.awayTeam.shortName.getD m.awayTeam.name
    minute := m.minute.getD 0
    competition := m.competition.getD ""
    events := existingEvents.getD EventFlags.initial }

/-- An emitted event: its name, the team it was delivered to, and (for
`MATCH_STARTS_SOON`) the threshold minutes it carries (0 elsewhere). -/
structure Emitted where
  name : EventName
  teamId : Int
  minutes : Nat
deriving DecidableEq, Repr

/-- `emitForTeam`: an event reaches a team only when that team is tracked. -/
def emitForTeam (tracked : List Int) (teamId : Int) (name : EventName) (minutes : Nat) :
    List Emitted :=
  if teamId ∈ tracked then [{ name := name, teamId := teamId, minutes := minutes }] else []

def emitForTeams (tracked : List Int) : List Int → EventName → Nat → List Emitted
  | [], _, _ => []
  | t :: rest, n, k => emitForTeam tracked t n k ++ emitForTeams tracked rest n k

inductive ResultState
  | winning
  | losing
  | drawing
deriving DecidableEq, Repr

/-- `getResultState`. -/
def getResultState (teamScore opponentScore : Int) : ResultState :=
  if teamScore > opponentScore then .winning
  else if teamScore < opponentScore then .losing
  else .drawing

/-- `emitMatchResult`: win/loss/draw events from the final score. -/
def emitMatchResult (tracked : List Int) (m : MatchInfo) : List Emitted :=
  let homeScore := m.fullTimeHome.getD 0
  let awayScore := m.fullTimeAway.getD 0
  if homeScore > awayScore then
    emitForTeam tracked m.homeTeam.id .TEAM_WON 0 ++
      emitForTeam tracked m.awayTeam.id .TEAM_LOST 0
  else if awayScore > homeScore then
    emitForTeam tracked m.awayTeam.id .TEAM_WON 0 ++
      emitForTeam tracked m.homeTeam.id .TEAM_LOST 0
  else
    emitForTeams tracked [m.homeTeam.id, m.awayTeam.id] .TEAM_DREW 0

/-- `handleStatusChange`: returns the updated marker set together with the
events emitted.  In the source the markers are mutated on `cached.events`;
here they are threaded explicitly. -/
def handleStatusChange (tracked : List Int) (m : MatchInfo) (cached : CachedMatch) :
    EventFlags × List Emitted :=
  match m.status with
  | .IN_PLAY =>
    if cached.status ∈ UPCOMING_STATUSES then
      if cached.events.kickoffTriggered then (cached.events, [])
      else
        ({ cached.events with kickoffTriggered := true },
          emitForTeams tracked [m.homeTeam.id, m.awayTeam.id] .MATCH_KICKOFF 0)
    else if cached.status = .PAUSED then
      if cached.events.secondHalfTriggered then (cached.events, [])
      else
        ({ cached.events with secondHalfTriggered := true },
          emitForTeams tracked [m.homeTeam.id, m.awayTeam.id] .SECOND_HALF_STARTED 0)
    else (cached.events, [])
  | .PAUSED =>
    if cached.events.halftimeTriggered then (cached.events, [])
    else
      ({ cached.events with halftimeTriggered := true },
        emitForTeams tracked [m.homeTeam.id, m.awayTeam.id] .HALFTIME_STARTED 0)
  | .FINISHED =>
    if cached.events.finishedTriggered then (cached.events, [])
    else
      ({ cached.events with finishedTriggered := true },
        emitForTeams tracked [m.homeTeam.id, m.awayTeam.id] .MATCH_FINISHED 0 ++
          emitMatchResult tracked m)
  | .AWARDED =>
    if cached.events.finishedTriggered then (cached.events, [])
    else
      ({ cached.events with finishedTriggered := true },
        emitForTeams tracked [m.homeTeam.id, m.awayTeam.id] .MATCH_FINISHED 0 ++
          emitMatchResult tracked m)
  | _ => (cached.events, [])

/-- `emitResultStateChange`: fires only when the result state changed. -/
def emitResultStateChange (tracked : List Int) (teamId : Int)
    (oldState newState : ResultState) : List Emitted :=
  if oldState = newState then []
  else emitForTeam tracked teamId .MATCH_RESULT_CHANGED 0

/-- `handleScoreChange`: scored/conceded events for each side whose score
strictly increased, then result-state-change events for both sides. -/
def handleScoreChange (tracked : List Int) (m : MatchInfo) (cached : CachedMatch)
    (newHome newAway : Int) : List Emitted :=
  let homeTeamId := m.homeTeam.id
  let awayTeamId := m.awayTeam.id
  let oldHomeState := getResultState cached.homeScore cached.awayScore
  let oldAwayState := getResultState cached.awayScore cached.homeScore
  let newHomeState := getResultState newHome newAway
  let newAwayState := getResultState newAway newHome
  (if newHome > cached.homeScore then
      emitForTeam tracked homeTeamId .TEAM_SCORED 0 ++
        emitForTeam tracked awayTeamId .TEAM_CONCEDED 0
    else []) ++
  (if newAway > cached.awayScore then
      emitForTeam tracked awayTeamId .TEAM_SCORED 0 ++
        emitForTeam tracked homeTeamId .TEAM_CONCEDED 0
    else []) ++
  emitResultStateChange tracked homeTeamId oldHomeState newHomeState ++
  emitResultStateChange tracked awayTeamId oldAwayState newAwayState

/-- Status-change part of one iteration of `processMatchUpdates` for a match
with an existing cache entry: `handleStatusChange` runs only when the status
differs. -/
def statusStep (tracked : List Int) (m : MatchInfo) (cached : CachedMatch) :
    EventFlags × List Emitted :=
  if cached.status ≠ m.status then handleStatusChange tracked m cached
  else (cached.events, [])

/-- Score-change part of one iteration of `processMatchUpdates`: runs only
while the fresh status is live and a score differs from the cache. -/
def scoreStep (tracked : List Int) (m : MatchInfo) (cached : CachedMatch) : List Emitted :=
  if m.status ∈ LIVE_STATUSES ∧
      (m.fullTimeHome.getD 0 ≠ cached.homeScore ∨ m.fullTimeAway.getD 0 ≠ cached.awayScore) then
    handleScoreChange tracked m cached (m.fullTimeHome.getD 0) (m.fullTimeAway.getD 0)
  else []

/-- One iteration of the `processMatchUpdates` loop: the new cache entry for
`m.id` together with the events emitted for this match this cycle. -/
def processOneMatch (tracked : List Int) (cached? : Option CachedMatch) (m : MatchInfo) :
    CachedMatch × List Emitted :=
  match cached? with
  | none =>
    let base := createMatchState m none
    if m.status = .IN_PLAY then
      ({ base with events := { base.events with kickoffTriggered := true } },
        emitForTeams tracked [m.homeTeam.id, m.awayTeam.id] .MATCH_KICKOFF 0)
    else if m.status = .PAUSED then
      ({ base with events := { base.events with halftimeTriggered := true } },
        emitForTeams tracked [m.homeTeam.id, m.awayTeam.id] .HALFTIME_STARTED 0)
    else if m.status = .FINISHED ∨ m.status = .AWARDED then
      ({ base with events := { base.events with finishedTriggered := true } },
        emitForTeams tracked [m.homeTeam.id, m.awayTeam.id] .MATCH_FINISHED 0 ++
          emitMatchResult tracked m)
    else (base, [])
  | some cached =>
    (createMatchState m (some (statusStep tracked m cached).1),
      (statusStep tracked m cached).2 ++ scoreStep tracked m cached)

def cacheLookup (cache : List (Int × CachedMatch)) (id : Int) : Option CachedMatch :=
  (cache.find? (fun p => decide (p.1 = id))).map (fun p => p.2)

def cacheSet (cache : List (Int × CachedMatch)) (id : Int) (v : CachedMatch) :
    List (Int × CachedMatch) :=
  if cache.any (fun p => decide (p.1 = id)) then
    cache.map (fun p => if p.1 = id then (id, v) else p)
  else cache ++ [(id, v)]

/-- `processMatchUpdates` over the whole relevant-match list. -/
def processMatchUpdates (tracked : List Int) (cache : List (Int × CachedMatch)) :
    List MatchInfo → List (Int × CachedMatch) × List Emitted
  | [] => (cache, [])
  | m :: rest =>
    let r := processOneMatch tracked (cacheLookup cache m.id) m
    let r2 := processMatchUpdates tracked (cacheSet cache m.id r.1) rest
    (r2.1, r.2 ++ r2.2)

/-- Trace of successive snapshots of one match: fold `processOneMatch`,
collecting the emitted events. -/
def runTrace (tracked : List Int) (cached? : Option CachedMatch) :
    List MatchInfo → Option CachedMatch × List Emitted
  | [] => (cached?, [])
  | m :: rest =>
    let r := processOneMatch tracked cached? m
    let r2 := runTrace tracked (some r.1) rest
    (r2.1, r.2 ++ r2.2)

/-- Number of events named `n` delivered to team `tid` in an emission list. -/
def countEvents (tid : Int) (n : EventName) (evs : List Emitted) : Nat :=
  (evs.filter (fun e => decide (e.name = n ∧ e.teamId = tid))).length

/-- Whether the cycle processing snapshot `m` against `cached?` observes a
strict home-score increase while the fetched status is live (1) or not (0). -/
def stepHomeInc (cached? : Option CachedMatch) (m : MatchInfo) : Nat :=
  match cached? with
  | none => 0
  | some c =>
    if m.status ∈ LIVE_STATUSES ∧ m.fullTimeHome.getD 0 > c.homeScore then 1 else 0

/-- Away-side counterpart of `stepHomeInc`. -/
def stepAwayInc (cached? : Option CachedMatch) (m : MatchInfo) : Nat :=
  match cached? with
  | none => 0
  | some c =>
    if m.status ∈ LIVE_STATUSES ∧ m.fullTimeAway.getD 0 > c.awayScore then 1 else 0

/-- Number of cycles along a snapshot trace with a live-observed strict
home-score increase against the evolving cache. -/
def countHomeIncreases (tracked : List Int) (cached? : Option CachedMatch) :
    List MatchInfo → Nat
  | [] => 0
  | m :: rest =>
    stepHomeInc cached? m +
      countHomeIncreases tracked (some (processOneMatch tracked cached? m).1) rest

/-- Away-side counterpart of `countHomeIncreases`. -/
def countAwayIncreases (tracked : List Int) (cached? : Option CachedMatch) :
    List MatchInfo → Nat
  | [] => 0
  | m :: rest =>
    stepAwayInc cached? m +
      countAwayIncreases tracked (some (processOneMatch tracked cached? m).1) rest

/-! ## MatchManager.js: polling-state classification -/

/-- Fractional minutes elapsed since kickoff: `(now - matchDate) / 1000 / 60`. -/
def minutesSinceKickoff (now kick : Int) : ℚ := ((now - kick : Int) : ℚ) / 1000 / 60

/-- Fractional minutes since the estimated end (kickoff + 2 hours). -/
def minutesSinceEnd (now kick : Int) : ℚ :=
  ((now - (kick + 2 * 60 * 60 * 1000) : Int) : ℚ) / 1000 / 60

/-- Fractional hours until kickoff: `(matchDate - now) / 1000 / 60 / 60`. -/
def hoursUntilKickoff (now kick : Int) : ℚ := ((kick - now : Int) : ℚ) / 1000 / 60 / 60

/-- Fractional minutes until kickoff used by `checkMatchStartsSoon`. -/
def minutesUntilKickoff (now kick : Int) : ℚ := ((kick - now : Int) : ℚ) / 1000 / 60

/-- `hasLiveMatch` in `determinePollingState`. -/
def hasLiveMatch (ms : List MatchInfo) : Bool :=
  ms.any (fun m => decide (m.status = MatchStatus.IN_PLAY))

/-- `hasPausedMatch` in `determinePollingState`. -/
def hasPausedMatch (ms : List MatchInfo) : Bool :=
  ms.any (fun m => decide (m.status = MatchStatus.PAUSED))

/-- `hasProbablyLive` in `determinePollingState`: an upcoming-status match
whose kickoff passed between 0 and 120 minutes ago (exclusive bounds). -/
def hasProbablyLive (now : Int) (ms : List MatchInfo) : Bool :=
  ms.any (fun m => decide (m.status ∈ UPCOMING_STATUSES ∧
    0 < minutesSinceKickoff now m.utcDate ∧ minutesSinceKickoff now m.utcDate < 120))

/-- `hasRecentlyFinished` in `determinePollingState`. -/
def hasRecentlyFinished (now : Int) (ms : List MatchInfo) : Bool :=
  ms.any (fun m => decide (m.status ∈ COMPLETED_STATUSES ∧
    0 ≤ minutesSinceEnd now m.utcDate ∧ minutesSinceEnd now m.utcDate < 15))

/-- `hasUpcoming` in `determinePollingState`. -/
def hasUpcoming (now : Int) (ms : List MatchInfo) : Bool :=
  ms.any (fun m => decide (m.status ∈ UPCOMING_STATUSES ∧
    hoursUntilKickoff now m.utcDate ≤ 2 ∧ 0 < hoursUntilKickoff now m.utcDate))

/-- `determinePollingState`, with the checks in the order of the source:
IN_PLAY, then PAUSED, then probably-live (upcoming with kickoff 0-120
minutes in the past), then recently finished, then upcoming within 2 hours. -/
def determinePollingState (now : Int) (ms : List MatchInfo) : PollingState :=
  if hasLiveMatch ms then .LIVE
  else if hasPausedMatch ms then .PAUSED
  else if hasProbablyLive now ms then .LIVE
  else if hasRecentlyFinished now ms then .POST_MATCH
  else if hasUpcoming now ms then .PRE_MATCH
  else .IDLE

/-! ## MatchManager.js: match-starts-soon thresholds -/

/-- The threshold loop body of `checkMatchStartsSoon` for one match: returns
the updated triggered set and the list of thresholds fired this cycle. -/
def runThresholds (mu : ℚ) (trig : List Nat) : List Nat → List Nat × List Nat
  | [] => (trig, [])
  | t :: rest =>
    if mu ≤ (t : ℚ) ∧ 0 < mu ∧ ¬ t ∈ trig then
      let r := runThresholds mu (trig ++ [t]) rest
      (r.1, t :: r.2)
    else runThresholds mu trig rest

def trigLookup (tm : List (Int × List Nat)) (id : Int) : List Nat :=
  (((tm.find? (fun p => decide (p.1 = id)))).map (fun p => p.2)).getD []

def trigSet (tm : List (Int × List Nat)) (id : Int) (v : List Nat) :
    List (Int × List Nat) :=
  if tm.any (fun p => decide (p.1 = id)) then
    tm.map (fun p => if p.1 = id then (id, v) else p)
  else tm ++ [(id, v)]

def emitStartsSoon (tracked : List Int) (m : MatchInfo) : List Nat → List Emitted
  | [] => []
  | t :: rest =>
    emitForTeams tracked [m.homeTeam.id, m.awayTeam.id] .MATCH_STARTS_SOON t ++
      emitStartsSoon tracked m rest

/-- `checkMatchStartsSoon` for a single match: only upcoming-status matches
are considered; each threshold in `MATCH_SOON_THRESHOLDS` fires when
minutes-until-kickoff is in `(0, threshold]` and it has not fired before. -/
def checkMatchStartsSoonOne (tracked : List Int) (now : Int)
    (trigMap : List (Int × List Nat)) (m : MatchInfo) :
    List (Int × List Nat) × List Emitted :=
  if m.status ∈ UPCOMING_STATUSES then
    let mu := minutesUntilKickoff now m.utcDate
    let trig := trigLookup trigMap m.id
    let r := runThresholds mu trig MATCH_SOON_THRESHOLDS
    if r.2.isEmpty then (trigMap, [])
    else (trigSet trigMap m.id r.1, emitStartsSoon tracked m r.2)
  else (trigMap, [])

def checkMatchStartsSoon (tracked : List Int) (now : Int)
    (trigMap : List (Int × List Nat)) :
    List MatchInfo → List (Int × List Nat) × List Emitted
  | [] => (trigMap, [])
  | m :: rest =>
    let r := checkMatchStartsSoonOne tracked now trigMap m
    let r2 := checkMatchStartsSoon tracked now r.1 rest
    (r2.1, r.2 ++ r2.2)

/-! ## MatchManager.js: cleanup, manager state, poll cycle -/

/-- `cleanupOldMatches`: drop triggered-threshold records for matches no
longer in today's list, and cache entries of completed matches whose
estimated end (kickoff + 2h) lies more than two hours in the past. -/
def cleanupOldMatches (now : Int) (cache : List (Int × CachedMatch))
    (trigMap : List (Int × List Nat)) (currentMatches : List MatchInfo) :
    List (Int × CachedMatch) × List (Int × List Nat) :=
  let ids := currentMatches.map (fun m => m.id)
  let trig2 := trigMap.filter (fun p => decide (p.1 ∈ ids))
  let twoHoursAgo := now - 2 * 60 * 60 * 1000
  let cache2 := cache.filter (fun p =>
    !(decide (p.2.status ∈ COMPLETED_STATUSES) &&
      decide (p.2.utcDate + 2 * 60 * 60 * 1000 < twoHoursAgo)))
  (cache2, trig2)

/-- The mutable fields of the `MatchManager` instance.  `trackedTeams` maps a
team id to its registered devices; `pollTimer` records the delay of the
pending single-shot timer, or `none` when no poll is pending. -/
structure ManagerState where
  trackedTeams : List (Int × List Nat)
  matchCache : List (Int × CachedMatch)
  pollingState : PollingState
  pollTimer : Option Int
  matchStartsSoonTriggered : List (Int × List Nat)
deriving DecidableEq, Repr

def getTrackedTeamIds (st : ManagerState) : List Int :=
  st.trackedTeams.map (fun p => p.1)

def getPollingInterval (st : ManagerState) : Int := POLLING_INTERVALS st.pollingState

/-- `scheduleNextPoll`: arm the single-shot timer with the delay of the
current polling state (any previous handle is cleared first). -/
def scheduleNextPoll (st : ManagerState) : ManagerState :=
  { st with pollTimer := some (getPollingInterval st) }

/-- `stopPolling`: clear the pending timer. -/
def stopPolling (st : ManagerState) : ManagerState :=
  { st with pollTimer := none }

/-- `unregisterDevice`: drop the device from the team's set, drop the team
when its set empties, and stop polling when no teams remain tracked. -/
def unregisterDevice (teamId : Int) (device : Nat) (st : ManagerState) : ManagerState :=
  let tt := st.trackedTeams.filterMap (fun p =>
    if p.1 = teamId then
      let ds := p.2.filter (fun d => decide (d ≠ device))
      if ds.isEmpty then none else some (p.1, ds)
    else some p)
  let st1 := { st with trackedTeams := tt }
  if tt.isEmpty then stopPolling st1 else st1

/-- The relevant-match filter of `poll`: matches touching a tracked team. -/
def relevantFor (tracked : List Int) (ms : List MatchInfo) : List MatchInfo :=
  ms.filter (fun m => decide (m.homeTeam.id ∈ tracked) || decide (m.awayTeam.id ∈ tracked))

/-- One poll cycle.  `fetchResult` is the outcome of the single
`getTodayMatches` fetch; with zero tracked teams the fetch is never
consulted.  Any error is caught at the cycle boundary and turns into a
fixed 60-second retry timer, with no other state change. -/
def poll (now : Int) (st : ManagerState) (fetchResult : Except String (List MatchInfo)) :
    ManagerState × List Emitted :=
  let trackedTeamIds := getTrackedTeamIds st
  if trackedTeamIds.length = 0 then (scheduleNextPoll st, [])
  else
    match fetchResult with
    | .error _ => ({ st with pollTimer := some 60000 }, [])
    | .ok allMatches =>
      let relevantMatches := relevantFor trackedTeamIds allMatches
      let r1 := processMatchUpdates trackedTeamIds st.matchCache relevantMatches
      let r2 := checkMatchStartsSoon trackedTeamIds now st.matchStartsSoonTriggered
        relevantMatches
      let r3 := cleanupOldMatches now r1.1 r2.1 relevantMatches
      let newState := determinePollingState now relevantMatches
      (scheduleNextPoll
        { st with
          matchCache := r3.1
          matchStartsSoonTriggered := r3.2
          pollingState := newState },
        r1.2 ++ r2.2)

/-! ## Spec-side bucket predicates (from the specification's words)

These restate the five scheduler buckets of the spec as propositions, to be
compared against the Boolean checks of `determinePollingState`. -/

def specBucketInPlay (ms : List MatchInfo) : Prop :=
  ∃ m ∈ ms, m.status = MatchStatus.IN_PLAY

def specBucketPaused (ms : List MatchInfo) : Prop :=
  ∃ m ∈ ms, m.status = MatchStatus.PAUSED

def specBucketDelayedKickoff (now : Int) (ms : List MatchInfo) : Prop :=
  ∃ m ∈ ms, m.status ∈ UPCOMING_STATUSES ∧
    0 < minutesSinceKickoff now m.utcDate ∧ minutesSinceKickoff now m.utcDate < 120

def specBucketRecentlyFinished (now : Int) (ms : List MatchInfo) : Prop :=
  ∃ m ∈ ms, m.status ∈ COMPLETED_STATUSES ∧
    0 ≤ minutesSinceEnd now m.utcDate ∧ minutesSinceEnd now m.utcDate < 15

def specBucketUpcomingSoon (now : Int) (ms : List MatchInfo) : Prop :=
  ∃ m ∈ ms, m.status ∈ UPCOMING_STATUSES ∧
    hoursUntilKickoff now m.utcDate ≤ 2 ∧ 0 < hoursUntilKickoff now m.utcDate

def mPausedC1 : MatchInfo :=
  { id := 1, status := .PAUSED, utcDate := 0
    homeTeam := { id := 10, name := "H1", shortName := none }
    awayTeam := { id := 20, name := "A1", shortName := none }
    fullTimeHome := some 0, fullTimeAway := some 0, minute := none, competition := none }

def mDelayedC1 : MatchInfo :=
  { id := 2, status := .TIMED, utcDate := 0
    homeTeam := { id := 30, name := "H2", shortName := none }
    awayTeam := { id := 40, name := "A2", shortName := none }
    fullTimeHome := some 0, fullTimeAway := some 0, minute := none, competition := none }

def stC5 : ManagerState :=
  { trackedTeams := [(7, [1])], matchCache := [], pollingState := .LIVE
    pollTimer := some 30000, matchStartsSoonTriggered := [] }

def stLiveZero : ManagerState :=
  { trackedTeams := [], matchCache := [], pollingState := .LIVE
    pollTimer := none, matchStartsSoonTriggered := [] }

def stIdleZero : ManagerState :=
  { trackedTeams := [], matchCache := [], pollingState := .IDLE
    pollTimer := none, matchStartsSoonTriggered := [] }

def stC6 : ManagerState :=
  { trackedTeams := [(7, [1])], matchCache := [], pollingState := .IDLE
    pollTimer := some 900000, matchStartsSoonTriggered := [] }

def rsC2 : List RequestRec :=
  [{ time := 50000, highPriority := false }, { time := 0, highPriority := false }]

def cW : CachedMatch :=
  { id := 1, status := .TIMED, utcDate := 0, homeScore := 0, awayScore := 0
    homeTeamId := 10, awayTeamId := 20, homeTeamName := "H", awayTeamName := "A"
    homeTeamShortName := "H", awayTeamShortName := "A", minute := 0, competition := ""
    events := { kickoffTriggered := true, halftimeTriggered := false
                secondHalfTriggered := false, extraTimeTriggered := false
                finishedTriggered := false } }

def mW : MatchInfo :=
  { id := 1, status := .IN_PLAY, utcDate := 0
    homeTeam := { id := 10, name := "H", shortName := none }
    awayTeam := { id := 20, name := "A", shortName := none }
    fullTimeHome := some 0, fullTimeAway := some 0, minute := none, competition := none }

def cC4 : CachedMatch :=
  { id := 1, status := .IN_PLAY, utcDate := 0, homeScore := 0, awayScore := 0
    homeTeamId := 10, awayTeamId := 20, homeTeamName := "H", awayTeamName := "A"
    homeTeamShortName := "H", awayTeamShortName := "A", minute := 0, competition := ""
    events := { kickoffTriggered := true, halftimeTriggered := false
                secondHalfTriggered := false, extraTimeTriggered := false
                finishedTriggered := false } }

def mC4 : MatchInfo :=
  { id := 1, status := .FINISHED, utcDate := 0
    homeTeam := { id := 10, name := "H", shortName := none }
    awayTeam := { id := 20, name := "A", shortName := none }
    fullTimeHome := some 1, fullTimeAway := some 0, minute := none, competition := none }

def mT0 : MatchInfo :=
  { id := 1, status := .IN_PLAY, utcDate := 0
    homeTeam := { id := 10, name := "H", shortName := none }
    awayTeam := { id := 20, name := "A", shortName := none }
    fullTimeHome := some 0, fullTimeAway := some 0, minute := none, competition := none }

def mT1 : MatchInfo :=
  { id := 1, status := .IN_PLAY, utcDate := 0
    homeTeam := { id := 10, name := "H", shortName := none }
    awayTeam := { id := 20, name := "A", shortName := none }
    fullTimeHome := some 1, fullTimeAway := some 0, minute := none, competition := none }

def cC9 : CachedMatch :=
  { id := 1, status := .IN_PLAY, utcDate := 0, homeScore := 2, awayScore := 1
    homeTeamId := 10, awayTeamId := 20, homeTeamName := "H", awayTeamName := "A"
    homeTeamShortName := "H", awayTeamShortName := "A", minute := 0, competition := ""
    events := { kickoffTriggered := true, halftimeTriggered := false
                secondHalfTriggered := false, extraTimeTriggered := false
                finishedTriggered := false } }

def mC9 : MatchInfo :=
  { id := 1, status := .IN_PLAY, utcDate := 0
    homeTeam := { id := 10, name := "H", shortName := none }
    awayTeam := { id := 20, name := "A", shortName := none }
    fullTimeHome := some 1, fullTimeAway := some 1, minute := none, competition := none }

def mSoon : MatchInfo :=
  { id := 5, status := .TIMED, utcDate := 7200000
    homeTeam := { id := 10, name := "H", shortName := none }
    awayTeam := { id := 20, name := "A", shortName := none }
    fullTimeHome := some 0, fullTimeAway := some 0, minute := none, competition := none }

theorem length_filter_mono {α : Type} (l : List α) (p q : α → Bool)
    (h : ∀ a ∈ l, p a = true → q a = true) :
    (l.filter p).length ≤ (l.filter q).length := by
  induction l with
  | nil => simp
  | cons a l ih =>
    have ih2 := ih (fun b hb hpb => h b (List.mem_cons_of_mem a hb) hpb)
    simp only [List.filter_cons]
    by_cases hp : p a = true
    · rw [if_pos hp, if_pos (h a (List.mem_cons_self a l) hp)]
      simpa using ih2
    · rw [if_neg hp]
      split
      · exact Nat.le_trans ih2 (by simp)
      · exact ih2

theorem cleanExpired_length (t : Int) (rs : List RequestRec) :
    (cleanExpiredTimestamps t (requestTimes rs)).length =
      (rs.filter (fun r => decide (r.time > t - 60000))).length := by
  induction rs with
  | nil => rfl
  | cons r rest ih =>
    simp only [requestTimes, List.map_cons, cleanExpiredTimestamps, List.filter_cons]
    simp only [requestTimes, cleanExpiredTimestamps] at ih
    by_cases hc : r.time > t - 60000
    · rw [if_pos (by simpa using hc), if_pos (by simpa using hc)]
      simp [ih]
    · rw [if_neg (by simpa using hc), if_neg (by simpa using hc)]
      exact ih

theorem windowCount_cons (r : RequestRec) (rest : List RequestRec) (T : Int)
    (p : RequestRec → Bool) :
    windowCount (r :: rest) T p =
      windowCount rest T p +
        (if (p r && decide (T - 60000 < r.time) && decide (r.time ≤ T)) = true
          then 1 else 0) := by
  simp only [windowCount, List.filter_cons]
  split
  · simp [Nat.add_comm]
  · simp

theorem windowCount_le_clean (rest : List RequestRec) (T t : Int) (p : RequestRec → Bool)
    (ht : t ≤ T) :
    windowCount rest T p ≤ (cleanExpiredTimestamps t (requestTimes rest)).length := by
  rw [cleanExpired_length]
  apply length_filter_mono
  intro a _ hpa
  simp only [Bool.and_eq_true, decide_eq_true_eq] at hpa
  have h1 : T - 60000 < a.time := hpa.1.2
  have h2 : t - 60000 < a.time := by omega
  simpa using h2

theorem canMakeRequest_length {now : Int} {tss : List Int} {hp : Bool}
    (h : canMakeRequest now tss hp = true) :
    (cleanExpiredTimestamps now tss).length <
      (if hp then RATE_LIMIT else RATE_LIMIT - RATE_LIMIT_BUFFER) := by
  simpa [canMakeRequest] using h

/-! ## Emission helper lemmas -/

theorem emitForTeam_mem {tracked : List Int} {tid : Int} {n : EventName} {k : Nat}
    {e : Emitted} (h : e ∈ emitForTeam tracked tid n k) :
    e.name = n ∧ e.teamId = tid ∧ e.minutes = k ∧ tid ∈ tracked := by
  simp only [emitForTeam] at h
  split at h
  · next ht =>
    simp only [List.mem_singleton] at h
    subst h
    exact ⟨rfl, rfl, rfl, ht⟩
  · simp at h

theorem emitForTeam_mem_iff {tracked : List Int} {tid : Int} {n : EventName} {k : Nat}
    {e : Emitted} :
    e ∈ emitForTeam tracked tid n k ↔
      tid ∈ tracked ∧ e = { name := n, teamId := tid, minutes := k } := by
  simp only [emitForTeam]
  split
  · next ht => simp [ht]
  · next ht => simp [ht]

theorem emitForTeams_mem_iff {tracked ids : List Int} {n : EventName} {k : Nat}
    {e : Emitted} :
    e ∈ emitForTeams tracked ids n k ↔
      ∃ t ∈ ids, t ∈ tracked ∧ e = { name := n, teamId := t, minutes := k } := by
  induction ids with
  | nil => simp [emitForTeams]
  | cons t rest ih =>
    simp only [emitForTeams, List.mem_append, ih, emitForTeam_mem_iff, List.mem_cons]
    constructor
    · rintro (⟨ht, he⟩ | ⟨t2, ht2, htr, he⟩)
      · exact ⟨t, Or.inl rfl, ht, he⟩
      · exact ⟨t2, Or.inr ht2, htr, he⟩
    · rintro ⟨t2, ht2 | ht2, htr, he⟩
      · subst ht2; exact Or.inl ⟨htr, he⟩
      · exact Or.inr ⟨t2, ht2, htr, he⟩

theorem emitForTeams_name {tracked ids : List Int} {n : EventName} {k : Nat}
    {e : Emitted} (h : e ∈ emitForTeams tracked ids n k) : e.name = n := by
  obtain ⟨t, _, _, he⟩ := emitForTeams_mem_iff.mp h
  subst he
  rfl

theorem emitMatchResult_names {tracked : List Int} {m : MatchInfo} {e : Emitted}
    (h : e ∈ emitMatchResult tracked m) :
    e.name = EventName.TEAM_WON ∨ e.name = EventName.TEAM_LOST ∨
      e.name = EventName.TEAM_DREW := by
  simp only [emitMatchResult] at h
  split at h
  · rcases List.mem_append.mp h with h2 | h2
    · exact Or.inl (emitForTeam_mem h2).1
    · exact Or.inr (Or.inl (emitForTeam_mem h2).1)
  · split at h
    · rcases List.mem_append.mp h with h2 | h2
      · exact Or.inl (emitForTeam_mem h2).1
      · exact Or.inr (Or.inl (emitForTeam_mem h2).1)
    · exact Or.inr (Or.inr (emitForTeams_name h))

theorem emitResultStateChange_mem_iff {tracked : List Int} {tid : Int}
    {oldState newState : ResultState} {e : Emitted} :
    e ∈ emitResultStateChange tracked tid oldState newState ↔
      oldState ≠ newState ∧ tid ∈ tracked ∧
        e = { name := EventName.MATCH_RESULT_CHANGED, teamId := tid, minutes := 0 } := by
  unfold emitResultStateChange
  split
  · next hs => simp [hs]
  · next hs => simp [emitForTeam_mem_iff, hs]

theorem handleScoreChange_names {tracked : List Int} {m : MatchInfo}
    {cached : CachedMatch} {nh na : Int} {e : Emitted}
    (h : e ∈ handleScoreChange tracked m cached nh na) :
    e.name = EventName.TEAM_SCORED ∨ e.name = EventName.TEAM_CONCEDED ∨
      e.name = EventName.MATCH_RESULT_CHANGED := by
  unfold handleScoreChange at h
  rcases List.mem_append.mp h with h1 | h1
  · rcases List.mem_append.mp h1 with h2 | h2
    · rcases List.mem_append.mp h2 with h3 | h3
      · split at h3
        · rcases List.mem_append.mp h3 with h4 | h4
          · exact Or.inl (emitForTeam_mem h4).1
          · exact Or.inr (Or.inl (emitForTeam_mem h4).1)
        · simp at h3
      · split at h3
        · rcases List.mem_append.mp h3 with h4 | h4
          · exact Or.inl (emitForTeam_mem h4).1
          · exact Or.inr (Or.inl (emitForTeam_mem h4).1)
        · simp at h3
    · obtain ⟨_, _, he⟩ := emitResultStateChange_mem_iff.mp h2
      subst he
      exact Or.inr (Or.inr rfl)
  · obtain ⟨_, _, he⟩ := emitResultStateChange_mem_iff.mp h1
    subst he
    exact Or.inr (Or.inr rfl)

theorem scoreStep_names {tracked : List Int} {m : MatchInfo} {cached : CachedMatch}
    {e : Emitted} (h : e ∈ scoreStep tracked m cached) :
    e.name = EventName.TEAM_SCORED ∨ e.name = EventName.TEAM_CONCEDED ∨
      e.name = EventName.MATCH_RESULT_CHANGED := by
  unfold scoreStep at h
  split at h
  · exact handleScoreChange_names h
  · simp at h

theorem handleStatusChange_monotone (tracked : List Int) (m : MatchInfo)
    (cached : CachedMatch) :
    (cached.events.kickoffTriggered = true →
      (handleStatusChange tracked m cached).1.kickoffTriggered = true) ∧
    (cached.events.halftimeTriggered = true →
      (handleStatusChange tracked m cached).1.halftimeTriggered = true) ∧
    (cached.events.secondHalfTriggered = true →
      (handleStatusChange tracked m cached).1.secondHalfTriggered = true) ∧
    (cached.events.finishedTriggered = true →
      (handleStatusChange tracked m cached).1.finishedTriggered = true) := by
  unfold handleStatusChange
  cases m.status <;> (repeat' split) <;> simp_all

theorem handleStatusChange_no_reemit (tracked : List Int) (m : MatchInfo)
    (cached : CachedMatch) :
    (cached.events.kickoffTriggered = true →
      ∀ e ∈ (handleStatusChange tracked m cached).2,
        e.name ≠ EventName.MATCH_KICKOFF) ∧
    (cached.events.halftimeTriggered = true →
      ∀ e ∈ (handleStatusChange tracked m cached).2,
        e.name ≠ EventName.HALFTIME_STARTED) ∧
    (cached.events.secondHalfTriggered = true →
      ∀ e ∈ (handleStatusChange tracked m cached).2,
        e.name ≠ EventName.SECOND_HALF_STARTED) ∧
    (cached.events.finishedTriggered = true →
      ∀ e ∈ (handleStatusChange tracked m cached).2,
        e.name ≠ EventName.MATCH_FINISHED) := by
  unfold handleStatusChange
  cases m.status <;> (repeat' split) <;>
    refine ⟨?_, ?_, ?_, ?_⟩ <;>
    intro hflag e he <;>
    try simp_all
  all_goals
    (try rcases he with he | he) <;>
    first
    | (have hn := emitForTeams_name he
       simp_all)
    | (rcases emitMatchResult_names he with h3 | h3 | h3 <;> simp_all)

theorem statusStep_monotone (tracked : List Int) (m : MatchInfo) (cached : CachedMatch) :
    (cached.events.kickoffTriggered = true →
      (statusStep tracked m cached).1.kickoffTriggered = true) ∧
    (cached.events.halftimeTriggered = true →
      (statusStep tracked m cached).1.halftimeTriggered = true) ∧
    (cached.events.secondHalfTriggered = true →
      (statusStep tracked m cached).1.secondHalfTriggered = true) ∧
    (cached.events.finishedTriggered = true →
      (statusStep tracked m cached).1.finishedTriggered = true) := by
  unfold statusStep
  split
  · exact handleStatusChange_monotone tracked m cached
  · exact ⟨fun h => h, fun h => h, fun h => h, fun h => h⟩

theorem statusStep_no_reemit (tracked : List Int) (m : MatchInfo) (cached : CachedMatch) :
    (cached.events.kickoffTriggered = true →
      ∀ e ∈ (statusStep tracked m cached).2, e.name ≠ EventName.MATCH_KICKOFF) ∧
    (cached.events.halftimeTriggered = true →
      ∀ e ∈ (statusStep tracked m cached).2, e.name ≠ EventName.HALFTIME_STARTED) ∧
    (cached.events.secondHalfTriggered = true →
      ∀ e ∈ (statusStep tracked m cached).2, e.name ≠ EventName.SECOND_HALF_STARTED) ∧
    (cached.events.finishedTriggered = true →
      ∀ e ∈ (statusStep tracked m cached).2, e.name ≠ EventName.MATCH_FINISHED) := by
  unfold statusStep
  split
  · exact handleStatusChange_no_reemit tracked m cached
  · refine ⟨?_, ?_, ?_, ?_⟩ <;> intro _ e he <;> simp at he

theorem handleStatusChange_not_score_names {tracked : List Int} {m : MatchInfo}
    {cached : CachedMatch} {e : Emitted}
    (h : e ∈ (handleStatusChange tracked m cached).2) :
    e.name ≠ EventName.TEAM_SCORED ∧ e.name ≠ EventName.TEAM_CONCEDED ∧
      e.name ≠ EventName.MATCH_RESULT_CHANGED := by
  unfold handleStatusChange at h
  cases m.status <;> (repeat' split at h) <;> try simp_all
  all_goals
    (try rcases h with h | h) <;>
    first
    | (have hn := emitForTeams_name h
       refine ⟨?_, ?_, ?_⟩ <;> simp_all)
    | (rcases emitMatchResult_names h with h3 | h3 | h3 <;>
        refine ⟨?_, ?_, ?_⟩ <;> simp_all)

theorem statusStep_not_score_names {tracked : List Int} {m : MatchInfo}
    {cached : CachedMatch} {e : Emitted}
    (h : e ∈ (statusStep tracked m cached).2) :
    e.name ≠ EventName.TEAM_SCORED ∧ e.name ≠ EventName.TEAM_CONCEDED ∧
      e.name ≠ EventName.MATCH_RESULT_CHANGED := by
  unfold statusStep at h
  split at h
  · exact handleStatusChange_not_score_names h
  · simp at h

theorem processOneMatch_none_names {tracked : List Int} {m : MatchInfo} {e : Emitted}
    (h : e ∈ (processOneMatch tracked none m).2) :
    e.name ≠ EventName.TEAM_SCORED ∧ e.name ≠ EventName.TEAM_CONCEDED ∧
      e.name ≠ EventName.MATCH_RESULT_CHANGED := by
  unfold processOneMatch at h
  (repeat' split at h) <;> try simp_all
  all_goals
    (try rcases h with h | h) <;>
    first
    | (have hn := emitForTeams_name h
       refine ⟨?_, ?_, ?_⟩ <;> simp_all)
    | (rcases emitMatchResult_names h with h3 | h3 | h3 <;>
        refine ⟨?_, ?_, ?_⟩ <;> simp_all)

theorem countEvents_nil (tid : Int) (n : EventName) : countEvents tid n [] = 0 := rfl

theorem countEvents_append (tid : Int) (n : EventName) (a b : List Emitted) :
    countEvents tid n (a ++ b) = countEvents tid n a + countEvents tid n b := by
  simp [countEvents, List.filter_append]

theorem countEvents_eq_zero {tid : Int} {n : EventName} {evs : List Emitted}
    (h : ∀ e ∈ evs, e.name ≠ n) : countEvents tid n evs = 0 := by
  simp only [countEvents, List.length_eq_zero, List.filter_eq_nil_iff]
  intro e he
  simp [h e he]

theorem countEvents_singleton (tid tid2 : Int) (n n2 : EventName) (k : Nat) :
    countEvents tid n [{ name := n2, teamId := tid2, minutes := k }] =
      if n2 = n ∧ tid2 = tid then 1 else 0 := by
  by_cases hc : n2 = n ∧ tid2 = tid
  · obtain ⟨h1, h2⟩ := hc
    subst h1
    subst h2
    simp [countEvents, List.filter]
  · rw [if_neg hc]
    simp only [countEvents, List.filter]
    rw [decide_eq_false (by simpa using fun h1 h2 => hc ⟨h1, h2⟩)]
    rfl

theorem countEvents_emitForTeam (tracked : List Int) (tid tid2 : Int)
    (n n2 : EventName) (k : Nat) :
    countEvents tid n (emitForTeam tracked tid2 n2 k) =
      if tid2 ∈ tracked ∧ n2 = n ∧ tid2 = tid then 1 else 0 := by
  unfold emitForTeam
  split
  · next ht =>
    rw [countEvents_singleton]
    by_cases hc : n2 = n ∧ tid2 = tid
    · rw [if_pos hc, if_pos ⟨ht, hc⟩]
    · rw [if_neg hc, if_neg (by tauto)]
  · next ht =>
    rw [if_neg (by tauto)]
    rfl

theorem countEvents_emitResultStateChange (tracked : List Int) (tid tid2 : Int)
    (o s : ResultState) (n : EventName) (hn : n ≠ EventName.MATCH_RESULT_CHANGED) :
    countEvents tid n (emitResultStateChange tracked tid2 o s) = 0 := by
  apply countEvents_eq_zero
  intro e he
  obtain ⟨_, _, he2⟩ := emitResultStateChange_mem_iff.mp he
  subst he2
  exact fun h => hn h.symm

theorem handleScoreChange_counts (tracked : List Int) (m : MatchInfo)
    (cached : CachedMatch) (nh na : Int)
    (hH : m.homeTeam.id ∈ tracked) (hA : m.awayTeam.id ∈ tracked)
    (hne : m.homeTeam.id ≠ m.awayTeam.id) :
    countEvents m.homeTeam.id EventName.TEAM_SCORED
        (handleScoreChange tracked m cached nh na) =
      (if nh > cached.homeScore then 1 else 0) ∧
    countEvents m.awayTeam.id EventName.TEAM_CONCEDED
        (handleScoreChange tracked m cached nh na) =
      (if nh > cached.homeScore then 1 else 0) ∧
    countEvents m.awayTeam.id EventName.TEAM_SCORED
        (handleScoreChange tracked m cached nh na) =
      (if na > cached.awayScore then 1 else 0) ∧
    countEvents m.homeTeam.id EventName.TEAM_CONCEDED
        (handleScoreChange tracked m cached nh na) =
      (if na > cached.awayScore then 1 else 0) := by
  have hne2 : m.awayTeam.id ≠ m.homeTeam.id := Ne.symm hne
  refine ⟨?_, ?_, ?_, ?_⟩ <;>
  · simp only [handleScoreChange]
    rw [countEvents_append, countEvents_append, countEvents_append,
      countEvents_emitResultStateChange _ _ _ _ _ _ (by decide),
      countEvents_emitResultStateChange _ _ _ _ _ _ (by decide)]
    by_cases h1 : nh > cached.homeScore <;> by_cases h2 : na > cached.awayScore <;>
      simp [h1, h2, countEvents_append, countEvents_emitForTeam, countEvents_nil,
        hH, hA, hne, hne2]

theorem scoreStep_counts (tracked : List Int) (m : MatchInfo) (c : CachedMatch)
    (hH : m.homeTeam.id ∈ tracked) (hA : m.awayTeam.id ∈ tracked)
    (hne : m.homeTeam.id ≠ m.awayTeam.id) :
    countEvents m.homeTeam.id EventName.TEAM_SCORED (scoreStep tracked m c) =
      stepHomeInc (some c) m ∧
    countEvents m.awayTeam.id EventName.TEAM_CONCEDED (scoreStep tracked m c) =
      stepHomeInc (some c) m ∧
    countEvents m.awayTeam.id EventName.TEAM_SCORED (scoreStep tracked m c) =
      stepAwayInc (some c) m ∧
    countEvents m.homeTeam.id EventName.TEAM_CONCEDED (scoreStep tracked m c) =
      stepAwayInc (some c) m := by
  obtain ⟨hc1, hc2, hc3, hc4⟩ := handleScoreChange_counts tracked m c
    (m.fullTimeHome.getD 0) (m.fullTimeAway.getD 0) hH hA hne
  simp only [scoreStep, stepHomeInc, stepAwayInc]
  by_cases hlive : m.status ∈ LIVE_STATUSES
  · by_cases hdiff : m.fullTimeHome.getD 0 ≠ c.homeScore ∨ m.fullTimeAway.getD 0 ≠ c.awayScore
    · rw [if_pos ⟨hlive, hdiff⟩]
      refine ⟨?_, ?_, ?_, ?_⟩
      · rw [hc1]
        by_cases hgt : m.fullTimeHome.getD 0 > c.homeScore
        · rw [if_pos hgt, if_pos ⟨hlive, hgt⟩]
        · rw [if_neg hgt, if_neg (by tauto)]
      · rw [hc2]
        by_cases hgt : m.fullTimeHome.getD 0 > c.homeScore
        · rw [if_pos hgt, if_pos ⟨hlive, hgt⟩]
        · rw [if_neg hgt, if_neg (by tauto)]
      · rw [hc3]
        by_cases hgt : m.fullTimeAway.getD 0 > c.awayScore
        · rw [if_pos hgt, if_pos ⟨hlive, hgt⟩]
        · rw [if_neg hgt, if_neg (by tauto)]
      · rw [hc4]
        by_cases hgt : m.fullTimeAway.getD 0 > c.awayScore
        · rw [if_pos hgt, if_pos ⟨hlive, hgt⟩]
        · rw [if_neg hgt, if_neg (by tauto)]
    · push_neg at hdiff
      obtain ⟨heq1, heq2⟩ := hdiff
      have hgt1 : ¬ m.fullTimeHome.getD 0 > c.homeScore := by omega
      have hgt2 : ¬ m.fullTimeAway.getD 0 > c.awayScore := by omega
      rw [if_neg (by push_neg; intro _; exact ⟨heq1, heq2⟩)]
      refine ⟨?_, ?_, ?_, ?_⟩ <;>
        rw [countEvents_nil, if_neg (by tauto)]
  · rw [if_neg (by tauto)]
    refine ⟨?_, ?_, ?_, ?_⟩ <;>
      rw [countEvents_nil, if_neg (by tauto)]

theorem processOneMatch_scored_counts (tracked : List Int)
    (cached? : Option CachedMatch) (m : MatchInfo)
    (hH : m.homeTeam.id ∈ tracked) (hA : m.awayTeam.id ∈ tracked)
    (hne : m.homeTeam.id ≠ m.awayTeam.id) :
    countEvents m.homeTeam.id EventName.TEAM_SCORED
        (processOneMatch tracked cached? m).2 = stepHomeInc cached? m ∧
    countEvents m.awayTeam.id EventName.TEAM_CONCEDED
        (processOneMatch tracked cached? m).2 = stepHomeInc cached? m ∧
    countEvents m.awayTeam.id EventName.TEAM_SCORED
        (processOneMatch tracked cached? m).2 = stepAwayInc cached? m ∧
    countEvents m.homeTeam.id EventName.TEAM_CONCEDED
        (processOneMatch tracked cached? m).2 = stepAwayInc cached? m := by
  cases cached? with
  | none =>
    refine ⟨?_, ?_, ?_, ?_⟩ <;>
      exact countEvents_eq_zero (fun e he => by
        obtain ⟨hs, hc, _⟩ := processOneMatch_none_names he
        first | exact hs | exact hc)
  | some c =>
    obtain ⟨s1, s2, s3, s4⟩ := scoreStep_counts tracked m c hH hA hne
    have hsnd : (processOneMatch tracked (some c) m).2 =
        (statusStep tracked m c).2 ++ scoreStep tracked m c := rfl
    have hzero : ∀ tid n2, n2 = EventName.TEAM_SCORED ∨ n2 = EventName.TEAM_CONCEDED →
        countEvents tid n2 (statusStep tracked m c).2 = 0 := by
      intro tid n2 hn2
      apply countEvents_eq_zero
      intro e he
      obtain ⟨hs, hc, _⟩ := statusStep_not_score_names he
      rcases hn2 with h | h <;> subst h
      · exact hs
      · exact hc
    rw [hsnd]
    refine ⟨?_, ?_, ?_, ?_⟩ <;>
      rw [countEvents_append, hzero _ _ (by tauto), Nat.zero_add]
    · exact s1
    · exact s2
    · exact s3
    · exact s4

theorem runThresholds_fst (mu : ℚ) (ths : List Nat) (trig : List Nat) :
    (runThresholds mu trig ths).1 = trig ++ (runThresholds mu trig ths).2 := by
  induction ths generalizing trig with
  | nil => simp [runThresholds]
  | cons t rest ih =>
    simp only [runThresholds]
    split
    · simp only []
      rw [ih (trig ++ [t])]
      simp
    · exact ih trig

theorem runThresholds_mem (mu : ℚ) (ths : List Nat) (trig : List Nat) (T : Nat)
    (hnd : ths.Nodup) :
    T ∈ (runThresholds mu trig ths).2 ↔
      T ∈ ths ∧ mu ≤ (T : ℚ) ∧ 0 < mu ∧ T ∉ trig := by
  induction ths generalizing trig with
  | nil => simp [runThresholds]
  | cons t rest ih =>
    obtain ⟨ht, hnd2⟩ := List.nodup_cons.mp hnd
    simp only [runThresholds]
    split
    · next hc =>
      simp only [List.mem_cons]
      rw [ih (trig ++ [t]) hnd2]
      constructor
      · rintro (rfl | ⟨hTr, h1, h2, h3⟩)
        · exact ⟨Or.inl rfl, hc.1, hc.2.1, hc.2.2⟩
        · refine ⟨Or.inr hTr, h1, h2, fun hT => h3 ?_⟩
          simp [hT]
      · rintro ⟨rfl | hTr, h1, h2, h3⟩
        · exact Or.inl rfl
        · refine Or.inr ⟨hTr, h1, h2, fun hT => ?_⟩
          rcases List.mem_append.mp hT with h4 | h4
          · exact h3 h4
          · simp only [List.mem_singleton] at h4
            subst h4
            exact ht hTr
    · next hc =>
      rw [ih trig hnd2]
      simp only [List.mem_cons]
      constructor
      · rintro ⟨hTr, h1, h2, h3⟩
        exact ⟨Or.inr hTr, h1, h2, h3⟩
      · rintro ⟨rfl | hTr, h1, h2, h3⟩
        · exact absurd ⟨h1, h2, h3⟩ hc
        · exact ⟨hTr, h1, h2, h3⟩

theorem trigLookup_map_set (tm : List (Int × List Nat)) (id : Int) (v : List Nat)
    (h : tm.any (fun p => decide (p.1 = id)) = true) :
    trigLookup (tm.map (fun p => if p.1 = id then (id, v) else p)) id = v := by
  induction tm with
  | nil => simp at h
  | cons p rest ih =>
    simp only [List.any_cons, Bool.or_eq_true, decide_eq_true_eq] at h
    by_cases hp : p.1 = id
    · simp only [List.map_cons, if_pos hp, trigLookup]
      rw [List.find?_cons_of_pos _ (by simp)]
      rfl
    · have h2 : rest.any (fun p => decide (p.1 = id)) = true := by
        rcases h with h | h
        · exact absurd h hp
        · exact h
      simp only [List.map_cons, if_neg hp]
      simp only [trigLookup]
      rw [List.find?_cons_of_neg _ (by simpa using hp)]
      exact ih h2

theorem trigLookup_append_new (tm : List (Int × List Nat)) (id : Int) (v : List Nat)
    (h : tm.any (fun p => decide (p.1 = id)) = false) :
    trigLookup (tm ++ [(id, v)]) id = v := by
  induction tm with
  | nil =>
    simp only [List.nil_append, trigLookup]
    rw [List.find?_cons_of_pos _ (by simp)]
    rfl
  | cons p rest ih =>
    simp only [List.any_cons, Bool.or_eq_false_iff, decide_eq_false_iff_not] at h
    simp only [List.cons_append, trigLookup]
    rw [List.find?_cons_of_neg _ (by simpa using h.1)]
    exact ih (by simpa using h.2)

theorem trigLookup_trigSet (tm : List (Int × List Nat)) (id : Int) (v : List Nat) :
    trigLookup (trigSet tm id v) id = v := by
  unfold trigSet
  split
  · next h => exact trigLookup_map_set tm id v h
  · next h =>
    exact trigLookup_append_new tm id v (by simp only [Bool.not_eq_true] at h; exact h)

theorem emitStartsSoon_mem (tracked : List Int) (m : MatchInfo) (fired : List Nat)
    (tid : Int) (T : Nat) :
    ({ name := EventName.MATCH_STARTS_SOON, teamId := tid, minutes := T } : Emitted) ∈
        emitStartsSoon tracked m fired ↔
      T ∈ fired ∧ (tid = m.homeTeam.id ∨ tid = m.awayTeam.id) ∧ tid ∈ tracked := by
  induction fired with
  | nil => simp [emitStartsSoon]
  | cons t rest ih =>
    simp only [emitStartsSoon, List.mem_append, ih, emitForTeams_mem_iff, List.mem_cons]
    constructor
    · rintro (⟨t2, ht2, htr, he⟩ | ⟨hT, hor, htr⟩)
      · simp only [Emitted.mk.injEq] at he
        obtain ⟨_, h2, h3⟩ := he
        subst h2
        subst h3
        exact ⟨Or.inl rfl, by simpa using ht2, htr⟩
      · exact ⟨Or.inr hT, hor, htr⟩
    · rintro ⟨rfl | hT, hor, htr⟩
      · refine Or.inl ⟨tid, ?_, htr, rfl⟩
        rcases hor with h | h <;> simp [h]
      · exact Or.inr ⟨hT, hor, htr⟩

theorem checkOne_mem (tracked : List Int) (now : Int)
    (trigMap : List (Int × List Nat)) (m : MatchInfo) (T : Nat)
    (hup : m.status ∈ UPCOMING_STATUSES) (hH : m.homeTeam.id ∈ tracked) :
    ({ name := EventName.MATCH_STARTS_SOON, teamId := m.homeTeam.id,
        minutes := T } : Emitted) ∈
      (checkMatchStartsSoonOne tracked now trigMap m).2 ↔
      T ∈ (runThresholds (minutesUntilKickoff now m.utcDate)
        (trigLookup trigMap m.id) MATCH_SOON_THRESHOLDS).2 := by
  simp only [checkMatchStartsSoonOne]
  rw [if_pos hup]
  split
  · next hemp =>
    rw [List.isEmpty_iff] at hemp
    simp [hemp]
  · next hemp =>
    rw [emitStartsSoon_mem]
    constructor
    · rintro ⟨hT, _, _⟩
      exact hT
    · intro hT
      exact ⟨hT, Or.inl rfl, hH⟩

theorem checkOne_trig (tracked : List Int) (now : Int)
    (trigMap : List (Int × List Nat)) (m : MatchInfo)
    (hup : m.status ∈ UPCOMING_STATUSES) :
    trigLookup (checkMatchStartsSoonOne tracked now trigMap m).1 m.id =
      trigLookup trigMap m.id ++
        (runThresholds (minutesUntilKickoff now m.utcDate)
          (trigLookup trigMap m.id) MATCH_SOON_THRESHOLDS).2 := by
  simp only [checkMatchStartsSoonOne]
  rw [if_pos hup]
  split
  · next hemp =>
    rw [List.isEmpty_iff] at hemp
    simp [hemp]
  · next hemp =>
    rw [trigLookup_trigSet, runThresholds_fst]

theorem hasLiveMatch_iff (ms : List MatchInfo) :
    hasLiveMatch ms = true ↔ specBucketInPlay ms := by
  simp [hasLiveMatch, specBucketInPlay, List.any_eq_true]

theorem hasPausedMatch_iff (ms : List MatchInfo) :
    hasPausedMatch ms = true ↔ specBucketPaused ms := by
  simp [hasPausedMatch, specBucketPaused, List.any_eq_true]

theorem hasProbablyLive_iff (now : Int) (ms : List MatchInfo) :
    hasProbablyLive now ms = true ↔ specBucketDelayedKickoff now ms := by
  simp [hasProbablyLive, specBucketDelayedKickoff, List.any_eq_true]

theorem hasRecentlyFinished_iff (now : Int) (ms : List MatchInfo) :
    hasRecentlyFinished now ms = true ↔ specBucketRecentlyFinished now ms := by
  simp [hasRecentlyFinished, specBucketRecentlyFinished, List.any_eq_true]

theorem hasUpcoming_iff (now : Int) (ms : List MatchInfo) :
    hasUpcoming now ms = true ↔ specBucketUpcomingSoon now ms := by
  simp [hasUpcoming, specBucketUpcomingSoon, List.any_eq_true]

/-- C1 (amended): `determinePollingState` applies its checks in the source's
order IN_PLAY, PAUSED, delayed-kickoff compensation, recently finished,
upcoming within two hours, IDLE.  In particular the delayed-kickoff LIVE
compensation ranks below PAUSED, not above it. -/
theorem determinePollingState_priority (now : Int) (ms : List MatchInfo) :
    (specBucketInPlay ms → determinePollingState now ms = PollingState.LIVE) ∧
    (¬ specBucketInPlay ms → specBucketPaused ms →
      determinePollingState now ms = PollingState.PAUSED) ∧
    (¬ specBucketInPlay ms → ¬ specBucketPaused ms → specBucketDelayedKickoff now ms →
      determinePollingState now ms = PollingState.LIVE) ∧
    (¬ specBucketInPlay ms → ¬ specBucketPaused ms → ¬ specBucketDelayedKickoff now ms →
      specBucketRecentlyFinished now ms →
      determinePollingState now ms = PollingState.POST_MATCH) ∧
    (¬ specBucketInPlay ms → ¬ specBucketPaused ms → ¬ specBucketDelayedKickoff now ms →
      ¬ specBucketRecentlyFinished now ms → specBucketUpcomingSoon now ms →
      determinePollingState now ms = PollingState.PRE_MATCH) ∧
    (¬ specBucketInPlay ms → ¬ specBucketPaused ms → ¬ specBucketDelayedKickoff now ms →
      ¬ specBucketRecentlyFinished now ms → ¬ specBucketUpcomingSoon now ms →
      determinePollingState now ms = PollingState.IDLE) := by
  refine ⟨?_, ?_, ?_, ?_, ?_, ?_⟩ <;>
    simp only [determinePollingState, ← hasLiveMatch_iff, ← hasPausedMatch_iff,
      ← hasProbablyLive_iff, ← hasRecentlyFinished_iff, ← hasUpcoming_iff,
      Bool.not_eq_true] <;>
    intros <;>
    simp_all

/-- C1 (counterexample): a list holding a PAUSED match and an upcoming-status
match whose kickoff lies 30 minutes in the past is classified PAUSED, not
LIVE as the claim states. -/
theorem determinePollingState_paused_beats_delayed_cex :
    mDelayedC1.status ∈ UPCOMING_STATUSES ∧
    0 < minutesSinceKickoff 1800000 mDelayedC1.utcDate ∧
    minutesSinceKickoff 1800000 mDelayedC1.utcDate < 120 ∧
    mPausedC1.status = MatchStatus.PAUSED ∧
    determinePollingState 1800000 [mPausedC1, mDelayedC1] = PollingState.PAUSED ∧
    PollingState.PAUSED ≠ PollingState.LIVE := by
  refine ⟨by decide, ?_, ?_, rfl, rfl, by decide⟩
  · norm_num [minutesSinceKickoff, mDelayedC1]
  · norm_num [minutesSinceKickoff, mDelayedC1]

/-- C1 (witness): the amended priority theorem applied to a concrete list
holding only a PAUSED match. -/
theorem determinePollingState_priority_witness :
    determinePollingState 1800000 [mPausedC1] = PollingState.PAUSED :=
  (determinePollingState_priority 1800000 [mPausedC1]).2.1
    (by simp [specBucketInPlay, mPausedC1])
    ⟨mPausedC1, by simp, by simp [mPausedC1]⟩

/-- C5: when the fetch of a poll cycle fails, the error is caught at the
cycle boundary: the match cache, the starts-soon trigger records, the
tracked registry and the recorded polling state are unchanged, no event is
emitted, and the loop re-arms with the fixed 60-second retry delay. -/
theorem poll_fetch_error_frame (now : Int) (st : ManagerState) (msg : String)
    (h : st.trackedTeams ≠ []) :
    (poll now st (Except.error msg)).1.matchCache = st.matchCache ∧
    (poll now st (Except.error msg)).1.matchStartsSoonTriggered =
      st.matchStartsSoonTriggered ∧
    (poll now st (Except.error msg)).1.pollingState = st.pollingState ∧
    (poll now st (Except.error msg)).1.trackedTeams = st.trackedTeams ∧
    (poll now st (Except.error msg)).1.pollTimer = some 60000 ∧
    (poll now st (Except.error msg)).2 = [] := by
  have hlen : (getTrackedTeamIds st).length ≠ 0 := by
    simpa [getTrackedTeamIds] using h
  simp [poll, hlen]

/-- C5 (witness): the fetch-error frame theorem at a concrete live state. -/
theorem poll_fetch_error_frame_witness :
    (poll 0 stC5 (Except.error "boom")).1.matchCache = stC5.matchCache ∧
    (poll 0 stC5 (Except.error "boom")).1.matchStartsSoonTriggered =
      stC5.matchStartsSoonTriggered ∧
    (poll 0 stC5 (Except.error "boom")).1.pollingState = stC5.pollingState ∧
    (poll 0 stC5 (Except.error "boom")).1.trackedTeams = stC5.trackedTeams ∧
    (poll 0 stC5 (Except.error "boom")).1.pollTimer = some 60000 ∧
    (poll 0 stC5 (Except.error "boom")).2 = [] :=
  poll_fetch_error_frame 0 stC5 "boom" (by decide)

/-- C7 (amended): a poll cycle entered with zero tracked teams never consults
the fetch, emits nothing, changes no state, and schedules the next cycle at
the delay of the *current recorded polling state* (the IDLE delay precisely
when that state is IDLE). -/
theorem poll_zero_teams (now : Int) (st : ManagerState)
    (h : st.trackedTeams = []) (fetchResult : Except String (List MatchInfo)) :
    poll now st fetchResult =
      ({ st with pollTimer := some (POLLING_INTERVALS st.pollingState) }, []) := by
  simp [poll, getTrackedTeamIds, h, scheduleNextPoll, getPollingInterval]

/-- C7 (counterexample): a zero-team poll in recorded state LIVE schedules
the next cycle after 30 seconds, not at the claimed 15-minute IDLE delay. -/
theorem poll_zero_teams_cex :
    stLiveZero.trackedTeams = [] ∧
    (poll 0 stLiveZero (Except.ok [])).1.pollTimer = some 30000 ∧
    some (30000 : Int) ≠ some (POLLING_INTERVALS PollingState.IDLE) := by
  refine ⟨rfl, rfl, by decide⟩

/-- C7 (witness): the zero-team theorem at a concrete IDLE state, where the
scheduled delay is indeed the 15-minute IDLE delay. -/
theorem poll_zero_teams_witness :
    poll 0 stIdleZero (Except.ok []) =
      ({ stIdleZero with pollTimer := some (POLLING_INTERVALS stIdleZero.pollingState) },
        []) :=
  poll_zero_teams 0 stIdleZero rfl (Except.ok [])

/-- C6 (amended): unregistering the device that empties the tracked-team
registry clears the pending poll timer; re-arming is prevented only until a
still-running or later cycle completes, since a cycle that finishes with
zero tracked teams schedules another cycle (see the counterexample). -/
theorem unregisterDevice_last_clears_timer (teamId : Int) (device : Nat)
    (st : ManagerState)
    (h : (unregisterDevice teamId device st).trackedTeams = []) :
    (unregisterDevice teamId device st).pollTimer = none := by
  simp only [unregisterDevice] at h ⊢
  split at h
  · next hc => rw [if_pos hc]; rfl
  · next hc => exact absurd (List.isEmpty_iff.mpr h) hc

/-- C6 (counterexample): after the last device is unregistered the timer is
cleared, yet a poll cycle invoked afterwards (completing with zero tracked
teams) re-arms the timer, so a pending timer exists in a reachable state
with zero tracked subjects — refuting the "no later re-arm" claim. -/
theorem unregister_then_poll_rearms_cex :
    (unregisterDevice 7 1 stC6).trackedTeams = [] ∧
    (unregisterDevice 7 1 stC6).pollTimer = none ∧
    (poll 0 (unregisterDevice 7 1 stC6) (Except.ok [])).1.pollTimer ≠ none := by
  refine ⟨rfl, rfl, by decide⟩

/-- C6 (witness): the timer-clearing half of the amended claim at a concrete
one-team, one-device state. -/
theorem unregisterDevice_last_clears_timer_witness :
    (unregisterDevice 7 1 stC6).pollTimer = none :=
  unregisterDevice_last_clears_timer 7 1 stC6 rfl

/-- C2: along any admissible request trace (each request admitted only once
`canMakeRequest` holds at its send time, its timestamp recorded before
transmission), every trailing 60-second window holds at most
`RATE_LIMIT - RATE_LIMIT_BUFFER` (= 8) non-high-priority requests and at
most `RATE_LIMIT` (= 10) requests in total. -/
theorem rate_limiter_window_bounds (rs : List RequestRec)
    (h : validTrace rs = true) (T : Int) :
    windowCount rs T (fun r => !r.highPriority) ≤ RATE_LIMIT - RATE_LIMIT_BUFFER ∧
    windowCount rs T (fun _ => true) ≤ RATE_LIMIT := by
  induction rs with
  | nil => simp [windowCount, RATE_LIMIT, RATE_LIMIT_BUFFER]
  | cons r rest ih =>
    simp only [validTrace, Bool.and_eq_true] at h
    obtain ⟨⟨hrest, _⟩, hcan⟩ := h
    obtain ⟨ih1, ih2⟩ := ih hrest
    have hlim := canMakeRequest_length hcan
    rw [windowCount_cons, windowCount_cons]
    by_cases hwin : T - 60000 < r.time ∧ r.time ≤ T
    · have hclean1 := windowCount_le_clean rest T r.time (fun r => !r.highPriority) hwin.2
      have hclean2 := windowCount_le_clean rest T r.time (fun _ => true) hwin.2
      constructor
      · by_cases hp : r.highPriority
        · rw [if_neg (by simp [hp])]
          simpa using ih1
        · rw [if_pos (by simp [hp, hwin.1, hwin.2])]
          have : (cleanExpiredTimestamps r.time (requestTimes rest)).length <
              RATE_LIMIT - RATE_LIMIT_BUFFER := by
            simpa [hp] using hlim
          omega
      · rw [if_pos (by simp [hwin.1, hwin.2])]
        have hlim10 : (cleanExpiredTimestamps r.time (requestTimes rest)).length <
            RATE_LIMIT := by
          by_cases hp : r.highPriority
          · simpa [hp] using hlim
          · have : (cleanExpiredTimestamps r.time (requestTimes rest)).length <
                RATE_LIMIT - RATE_LIMIT_BUFFER := by simpa [hp] using hlim
            simp only [RATE_LIMIT, RATE_LIMIT_BUFFER] at *
            omega
        omega
    · have hneg : ¬ (T - 60000 < r.time) ∨ ¬ (r.time ≤ T) := by
        by_cases h1 : T - 60000 < r.time
        · exact Or.inr (fun h2 => hwin ⟨h1, h2⟩)
        · exact Or.inl h1
      rcases hneg with h1 | h1
      · rw [if_neg (by simp [h1]), if_neg (by simp [h1])]
        exact ⟨by simpa using ih1, by simpa using ih2⟩
      · rw [if_neg (by simp [h1]), if_neg (by simp [h1])]
        exact ⟨by simpa using ih1, by simpa using ih2⟩

/-- C2 (witness): the window bounds applied to a concrete admissible
two-request trace, at the window ending at its last request. -/
theorem rate_limiter_window_bounds_witness :
    validTrace rsC2 = true ∧
    (windowCount rsC2 50000 (fun r => !r.highPriority) ≤
        RATE_LIMIT - RATE_LIMIT_BUFFER ∧
      windowCount rsC2 50000 (fun _ => true) ≤ RATE_LIMIT) :=
  ⟨by decide, rate_limiter_window_bounds rsC2 (by decide) 50000⟩

/-- C3: each one-shot marker never reverts across a detector run on an
existing cache entry (so it transitions false-to-true at most once), the
updated marker set is the one carried into the replacement cache entry, and
once a marker is set the detector never re-emits the corresponding event,
whatever snapshot is processed next. -/
theorem one_shot_markers (tracked : List Int) (c : CachedMatch) (m : MatchInfo) :
    (c.events.kickoffTriggered = true →
      (processOneMatch tracked (some c) m).1.events.kickoffTriggered = true ∧
      ∀ e ∈ (processOneMatch tracked (some c) m).2,
        e.name ≠ EventName.MATCH_KICKOFF) ∧
    (c.events.halftimeTriggered = true →
      (processOneMatch tracked (some c) m).1.events.halftimeTriggered = true ∧
      ∀ e ∈ (processOneMatch tracked (some c) m).2,
        e.name ≠ EventName.HALFTIME_STARTED) ∧
    (c.events.secondHalfTriggered = true →
      (processOneMatch tracked (some c) m).1.events.secondHalfTriggered = true ∧
      ∀ e ∈ (processOneMatch tracked (some c) m).2,
        e.name ≠ EventName.SECOND_HALF_STARTED) ∧
    (c.events.finishedTriggered = true →
      (processOneMatch tracked (some c) m).1.events.finishedTriggered = true ∧
      ∀ e ∈ (processOneMatch tracked (some c) m).2,
        e.name ≠ EventName.MATCH_FINISHED) := by
  obtain ⟨m1, m2, m3, m4⟩ := statusStep_monotone tracked m c
  obtain ⟨r1, r2, r3, r4⟩ := statusStep_no_reemit tracked m c
  have hfst : (processOneMatch tracked (some c) m).1.events = (statusStep tracked m c).1 :=
    rfl
  have hsnd : (processOneMatch tracked (some c) m).2 =
      (statusStep tracked m c).2 ++ scoreStep tracked m c := rfl
  refine ⟨fun h => ⟨by rw [hfst]; exact m1 h, ?_⟩,
    fun h => ⟨by rw [hfst]; exact m2 h, ?_⟩,
    fun h => ⟨by rw [hfst]; exact m3 h, ?_⟩,
    fun h => ⟨by rw [hfst]; exact m4 h, ?_⟩⟩ <;>
    intro e he <;> rw [hsnd] at he <;> rcases List.mem_append.mp he with h2 | h2
  · exact r1 h e h2
  · rcases scoreStep_names h2 with h3 | h3 | h3 <;> simp [h3]
  · exact r2 h e h2
  · rcases scoreStep_names h2 with h3 | h3 | h3 <;> simp [h3]
  · exact r3 h e h2
  · rcases scoreStep_names h2 with h3 | h3 | h3 <;> simp [h3]
  · exact r4 h e h2
  · rcases scoreStep_names h2 with h3 | h3 | h3 <;> simp [h3]

/-- C3 (witness): a cached TIMED entry with the kickoff marker latched,
re-processed against an IN_PLAY snapshot, keeps the marker and emits no
kickoff event. -/
theorem one_shot_markers_witness :
    (processOneMatch [10, 20] (some cW) mW).1.events.kickoffTriggered = true ∧
    ∀ e ∈ (processOneMatch [10, 20] (some cW) mW).2,
      e.name ≠ EventName.MATCH_KICKOFF :=
  (one_shot_markers [10, 20] cW mW).1 rfl

/-- C4 (amended): along any trace of snapshots of one match, with both sides
tracked, the number of `team_scored` events delivered to a side equals the
number of cycles in which the fetched status was live (IN_PLAY or PAUSED), a
cache entry existed, and that side's score strictly increased versus the
cached score — with a matching `team_conceded` event delivered to the
opposing side on each such cycle. -/
theorem team_scored_counts (tracked : List Int) (H A : Int)
    (snaps : List MatchInfo) (cached? : Option CachedMatch)
    (hids : ∀ s ∈ snaps, s.homeTeam.id = H ∧ s.awayTeam.id = A)
    (hH : H ∈ tracked) (hA : A ∈ tracked) (hne : H ≠ A) :
    countEvents H EventName.TEAM_SCORED (runTrace tracked cached? snaps).2 =
      countHomeIncreases tracked cached? snaps ∧
    countEvents A EventName.TEAM_CONCEDED (runTrace tracked cached? snaps).2 =
      countHomeIncreases tracked cached? snaps ∧
    countEvents A EventName.TEAM_SCORED (runTrace tracked cached? snaps).2 =
      countAwayIncreases tracked cached? snaps ∧
    countEvents H EventName.TEAM_CONCEDED (runTrace tracked cached? snaps).2 =
      countAwayIncreases tracked cached? snaps := by
  induction snaps generalizing cached? with
  | nil => exact ⟨rfl, rfl, rfl, rfl⟩
  | cons m rest ih =>
    obtain ⟨hmH, hmA⟩ := hids m (List.mem_cons_self m rest)
    have hidr : ∀ s ∈ rest, s.homeTeam.id = H ∧ s.awayTeam.id = A :=
      fun s hs => hids s (List.mem_cons_of_mem m hs)
    obtain ⟨s1, s2, s3, s4⟩ := processOneMatch_scored_counts tracked cached? m
      (by rw [hmH]; exact hH) (by rw [hmA]; exact hA) (by rw [hmH, hmA]; exact hne)
    rw [hmH] at s1 s4
    rw [hmA] at s2 s3
    obtain ⟨i1, i2, i3, i4⟩ := ih (some (processOneMatch tracked cached? m).1) hidr
    have hrt : (runTrace tracked cached? (m :: rest)).2 =
        (processOneMatch tracked cached? m).2 ++
          (runTrace tracked (some (processOneMatch tracked cached? m).1) rest).2 := rfl
    have hh : countHomeIncreases tracked cached? (m :: rest) =
        stepHomeInc cached? m +
          countHomeIncreases tracked (some (processOneMatch tracked cached? m).1) rest :=
      rfl
    have ha : countAwayIncreases tracked cached? (m :: rest) =
        stepAwayInc cached? m +
          countAwayIncreases tracked (some (processOneMatch tracked cached? m).1) rest :=
      rfl
    rw [hrt, hh, ha, countEvents_append, countEvents_append, countEvents_append,
      countEvents_append, s1, s2, s3, s4, i1, i2, i3, i4]
    exact ⟨rfl, rfl, rfl, rfl⟩

/-- C4 (counterexample): a cycle in which the home score strictly increases
versus the cache (0 to 1) while the fetched status is FINISHED emits no
`team_scored` event, refuting the claim's unqualified equality between
scored events and strict score increases. -/
theorem team_scored_nonlive_increase_cex :
    cC4.homeScore < mC4.fullTimeHome.getD 0 ∧
    mC4.status ∉ LIVE_STATUSES ∧
    countEvents 10 EventName.TEAM_SCORED (runTrace [10, 20] (some cC4) [mC4]).2 = 0 := by
  refine ⟨by decide, by decide, by decide⟩

/-- C4 (witness): the amended counting theorem on a concrete two-cycle trace
in which the home side scores once while live. -/
theorem team_scored_counts_witness :
    countEvents 10 EventName.TEAM_SCORED (runTrace [10, 20] none [mT0, mT1]).2 =
      countHomeIncreases [10, 20] none [mT0, mT1] ∧
    countEvents 20 EventName.TEAM_CONCEDED (runTrace [10, 20] none [mT0, mT1]).2 =
      countHomeIncreases [10, 20] none [mT0, mT1] ∧
    countEvents 20 EventName.TEAM_SCORED (runTrace [10, 20] none [mT0, mT1]).2 =
      countAwayIncreases [10, 20] none [mT0, mT1] ∧
    countEvents 10 EventName.TEAM_CONCEDED (runTrace [10, 20] none [mT0, mT1]).2 =
      countAwayIncreases [10, 20] none [mT0, mT1] :=
  team_scored_counts [10, 20] 10 20 [mT0, mT1] none (by decide) (by decide) (by decide)
    (by decide)

/-- C9: when a cached live match is re-fetched with a strictly lower home
score (and no away increase), no `team_scored` or `team_conceded` event is
emitted, the replacement cache entry takes the lower scores, and a
`match_result_changed` event is delivered to a side exactly when that side's
winning/losing/drawing state changed. -/
theorem score_decrease_events (tracked : List Int) (c : CachedMatch) (m : MatchInfo)
    (hlive : m.status ∈ LIVE_STATUSES)
    (hdec : m.fullTimeHome.getD 0 < c.homeScore)
    (hnoinc : m.fullTimeAway.getD 0 ≤ c.awayScore)
    (hH : m.homeTeam.id ∈ tracked) (hA : m.awayTeam.id ∈ tracked)
    (hne : m.homeTeam.id ≠ m.awayTeam.id) :
    (∀ e ∈ (processOneMatch tracked (some c) m).2,
      e.name ≠ EventName.TEAM_SCORED ∧ e.name ≠ EventName.TEAM_CONCEDED) ∧
    (processOneMatch tracked (some c) m).1.homeScore = m.fullTimeHome.getD 0 ∧
    (processOneMatch tracked (some c) m).1.awayScore = m.fullTimeAway.getD 0 ∧
    (({ name := EventName.MATCH_RESULT_CHANGED, teamId := m.homeTeam.id,
          minutes := 0 } : Emitted) ∈ (processOneMatch tracked (some c) m).2 ↔
      getResultState c.homeScore c.awayScore ≠
        getResultState (m.fullTimeHome.getD 0) (m.fullTimeAway.getD 0)) ∧
    (({ name := EventName.MATCH_RESULT_CHANGED, teamId := m.awayTeam.id,
          minutes := 0 } : Emitted) ∈ (processOneMatch tracked (some c) m).2 ↔
      getResultState c.awayScore c.homeScore ≠
        getResultState (m.fullTimeAway.getD 0) (m.fullTimeHome.getD 0)) := by
  have hss : scoreStep tracked m c =
      handleScoreChange tracked m c (m.fullTimeHome.getD 0) (m.fullTimeAway.getD 0) := by
    unfold scoreStep
    rw [if_pos ⟨hlive, Or.inl (by omega)⟩]
  have hsc : handleScoreChange tracked m c
        (m.fullTimeHome.getD 0) (m.fullTimeAway.getD 0) =
      emitResultStateChange tracked m.homeTeam.id
          (getResultState c.homeScore c.awayScore)
          (getResultState (m.fullTimeHome.getD 0) (m.fullTimeAway.getD 0)) ++
        emitResultStateChange tracked m.awayTeam.id
          (getResultState c.awayScore c.homeScore)
          (getResultState (m.fullTimeAway.getD 0) (m.fullTimeHome.getD 0)) := by
    simp only [handleScoreChange]
    rw [if_neg (by omega), if_neg (by omega)]
    simp
  have hsnd : (processOneMatch tracked (some c) m).2 =
      (statusStep tracked m c).2 ++ scoreStep tracked m c := rfl
  refine ⟨?_, rfl, rfl, ?_, ?_⟩
  · intro e he
    rw [hsnd] at he
    rcases List.mem_append.mp he with h2 | h2
    · obtain ⟨hs, hc, _⟩ := statusStep_not_score_names h2
      exact ⟨hs, hc⟩
    · rw [hss, hsc] at h2
      rcases List.mem_append.mp h2 with h3 | h3 <;>
      · obtain ⟨_, _, he2⟩ := emitResultStateChange_mem_iff.mp h3
        subst he2
        exact ⟨by simp, by simp⟩
  · rw [hsnd, hss, hsc]
    constructor
    · intro hmem
      rcases List.mem_append.mp hmem with h2 | h2
      · exact absurd rfl (statusStep_not_score_names h2).2.2
      · rcases List.mem_append.mp h2 with h3 | h3
        · exact (emitResultStateChange_mem_iff.mp h3).1
        · obtain ⟨_, _, he2⟩ := emitResultStateChange_mem_iff.mp h3
          exact absurd (congrArg Emitted.teamId he2) hne
    · intro hch
      refine List.mem_append.mpr (Or.inr (List.mem_append.mpr (Or.inl ?_)))
      exact emitResultStateChange_mem_iff.mpr ⟨hch, hH, rfl⟩
  · rw [hsnd, hss, hsc]
    constructor
    · intro hmem
      rcases List.mem_append.mp hmem with h2 | h2
      · exact absurd rfl (statusStep_not_score_names h2).2.2
      · rcases List.mem_append.mp h2 with h3 | h3
        · obtain ⟨_, _, he2⟩ := emitResultStateChange_mem_iff.mp h3
          exact absurd (congrArg Emitted.teamId he2) (Ne.symm hne)
        · exact (emitResultStateChange_mem_iff.mp h3).1
    · intro hch
      refine List.mem_append.mpr (Or.inr (List.mem_append.mpr (Or.inr ?_)))
      exact emitResultStateChange_mem_iff.mpr ⟨hch, hA, rfl⟩

/-- C9 (witness): a cached 2-1 live match re-fetched as 1-1 (disallowed home
goal): no scored/conceded events, cache drops to 1-1, and both sides (home
winning-to-drawing, away losing-to-drawing) get a result-changed event. -/
theorem score_decrease_events_witness :
    (∀ e ∈ (processOneMatch [10, 20] (some cC9) mC9).2,
      e.name ≠ EventName.TEAM_SCORED ∧ e.name ≠ EventName.TEAM_CONCEDED) ∧
    (processOneMatch [10, 20] (some cC9) mC9).1.homeScore = mC9.fullTimeHome.getD 0 ∧
    (processOneMatch [10, 20] (some cC9) mC9).1.awayScore = mC9.fullTimeAway.getD 0 ∧
    (({ name := EventName.MATCH_RESULT_CHANGED, teamId := mC9.homeTeam.id,
          minutes := 0 } : Emitted) ∈ (processOneMatch [10, 20] (some cC9) mC9).2 ↔
      getResultState cC9.homeScore cC9.awayScore ≠
        getResultState (mC9.fullTimeHome.getD 0) (mC9.fullTimeAway.getD 0)) ∧
    (({ name := EventName.MATCH_RESULT_CHANGED, teamId := mC9.awayTeam.id,
          minutes := 0 } : Emitted) ∈ (processOneMatch [10, 20] (some cC9) mC9).2 ↔
      getResultState cC9.awayScore cC9.homeScore ≠
        getResultState (mC9.fullTimeAway.getD 0) (mC9.fullTimeHome.getD 0)) :=
  score_decrease_events [10, 20] cC9 mC9 (by decide) (by decide) (by decide) (by decide)
    (by decide) (by decide)

theorem minutesUntilKickoff_lt {now1 now2 kick : Int} (h : now1 < now2) :
    minutesUntilKickoff now2 kick < minutesUntilKickoff now1 kick := by
  unfold minutesUntilKickoff
  rw [div_lt_div_iff_of_pos_right (by norm_num : (0:ℚ) < 60),
    div_lt_div_iff_of_pos_right (by norm_num : (0:ℚ) < 1000)]
  have h2 : (kick - now2 : Int) < (kick - now1 : Int) := by omega
  exact_mod_cast h2

/-- C8: for an upcoming-status match with a tracked home side:
(1) a `match_starts_soon` event carrying threshold `T` is emitted on a cycle
exactly when `T` is a configured threshold, minutes-until-kickoff lies in
`(0, T]`, and the (match, `T`) pair has not fired before;
(2) after the cycle the fired set holds exactly the old records plus the
thresholds whose window was reached, so each pair fires at most once;
(3) across two cycles at increasing wall-clock times, a threshold newly
fired at the later cycle is strictly smaller than any threshold fired at the
earlier cycle. -/
theorem match_starts_soon_spec (tracked : List Int) (m : MatchInfo)
    (hup : m.status ∈ UPCOMING_STATUSES) (hH : m.homeTeam.id ∈ tracked) :
    (∀ (now : Int) (trigMap : List (Int × List Nat)) (T : Nat),
      ({ name := EventName.MATCH_STARTS_SOON, teamId := m.homeTeam.id,
          minutes := T } : Emitted) ∈
          (checkMatchStartsSoonOne tracked now trigMap m).2 ↔
        T ∈ MATCH_SOON_THRESHOLDS ∧ 0 < minutesUntilKickoff now m.utcDate ∧
          minutesUntilKickoff now m.utcDate ≤ (T : ℚ) ∧
          T ∉ trigLookup trigMap m.id) ∧
    (∀ (now : Int) (trigMap : List (Int × List Nat)) (T : Nat),
      T ∈ trigLookup (checkMatchStartsSoonOne tracked now trigMap m).1 m.id ↔
        T ∈ trigLookup trigMap m.id ∨
          (T ∈ MATCH_SOON_THRESHOLDS ∧ 0 < minutesUntilKickoff now m.utcDate ∧
            minutesUntilKickoff now m.utcDate ≤ (T : ℚ))) ∧
    (∀ (now1 now2 : Int) (trigMap1 trigMap2 : List (Int × List Nat)) (T1 T2 : Nat),
      now1 < now2 →
      ({ name := EventName.MATCH_STARTS_SOON, teamId := m.homeTeam.id,
          minutes := T1 } : Emitted) ∈
        (checkMatchStartsSoonOne tracked now1 trigMap1 m).2 →
      ({ name := EventName.MATCH_STARTS_SOON, teamId := m.homeTeam.id,
          minutes := T2 } : Emitted) ∈
        (checkMatchStartsSoonOne tracked now2 trigMap2 m).2 →
      T2 ∉ trigLookup trigMap1 m.id →
      ({ name := EventName.MATCH_STARTS_SOON, teamId := m.homeTeam.id,
          minutes := T2 } : Emitted) ∉
        (checkMatchStartsSoonOne tracked now1 trigMap1 m).2 →
      T2 < T1) := by
  have hnd : MATCH_SOON_THRESHOLDS.Nodup := by decide
  have part1 : ∀ (now : Int) (trigMap : List (Int × List Nat)) (T : Nat),
      ({ name := EventName.MATCH_STARTS_SOON, teamId := m.homeTeam.id,
          minutes := T } : Emitted) ∈
          (checkMatchStartsSoonOne tracked now trigMap m).2 ↔
        T ∈ MATCH_SOON_THRESHOLDS ∧ 0 < minutesUntilKickoff now m.utcDate ∧
          minutesUntilKickoff now m.utcDate ≤ (T : ℚ) ∧
          T ∉ trigLookup trigMap m.id := by
    intro now trigMap T
    rw [checkOne_mem tracked now trigMap m T hup hH,
      runThresholds_mem _ _ _ _ hnd]
    tauto
  refine ⟨part1, ?_, ?_⟩
  · intro now trigMap T
    rw [checkOne_trig tracked now trigMap m hup]
    rw [List.mem_append, runThresholds_mem _ _ _ _ hnd]
    by_cases htr : T ∈ trigLookup trigMap m.id
    · simp [htr]
    · simp only [htr, false_or]
      tauto
  · intro now1 now2 trigMap1 trigMap2 T1 T2 h12 hf1 hf2 hT2old hT2not
    obtain ⟨hths1, hpos1, hle1, _⟩ := (part1 now1 trigMap1 T1).mp hf1
    obtain ⟨hths2, hpos2, hle2, _⟩ := (part1 now2 trigMap2 T2).mp hf2
    have hmu : minutesUntilKickoff now2 m.utcDate < minutesUntilKickoff now1 m.utcDate :=
      minutesUntilKickoff_lt h12
    have hgt : (T2 : ℚ) < minutesUntilKickoff now1 m.utcDate := by
      by_contra hcon
      push_neg at hcon
      exact hT2not ((part1 now1 trigMap1 T2).mpr ⟨hths2, hpos1, hcon, hT2old⟩)
    have : (T2 : ℚ) < (T1 : ℚ) := lt_of_lt_of_le hgt hle1
    exact_mod_cast this

/-- C8 (witness): one hour before kickoff with no prior records, the 60-minute
threshold fires for the tracked home side. -/
theorem match_starts_soon_spec_witness :
    ({ name := EventName.MATCH_STARTS_SOON, teamId := mSoon.homeTeam.id,
        minutes := 60 } : Emitted) ∈
      (checkMatchStartsSoonOne [10, 20] 3600000 [] mSoon).2 :=
  ((match_starts_soon_spec [10, 20] mSoon (by decide) (by decide)).1 3600000 [] 60).mpr
    ⟨by decide, by norm_num [minutesUntilKickoff, mSoon],
      by norm_num [minutesUntilKickoff, mSoon], by decide⟩

/-- C10: `stopPolling` only clears the pending timer handle; the tracked
registry, the match cache, the starts-soon trigger records and the recorded
polling state are all left unchanged, so the retained one-shot markers and
fired-threshold records survive a stop/restart. -/
theorem stopPolling_frame (st : ManagerState) :
    (stopPolling st).trackedTeams = st.trackedTeams ∧
    (stopPolling st).matchCache = st.matchCache ∧
    (stopPolling st).matchStartsSoonTriggered = st.matchStartsSoonTriggered ∧
    (stopPolling st).pollingState = st.pollingState ∧
    (stopPolling st).pollTimer = none :=
  ⟨rfl, rfl, rfl, rfl, rfl⟩

end FootballData
